import Mathlib

/-!
Shallow embedding of `src/main.py` from the `ai_fiction` repository.

The program loads a character profile from `elara.json`, builds an opening
system prompt at module load time, obtains an opening narrative from the
Ollama chat backend, and then serves an interaction loop (`run_action`) that
replays the transcript to the stateless backend on every turn.

External collaborators (the filesystem, the `json` parser, and the Ollama
chat endpoint) are modelled as function parameters.  Machine-level details
(the Gradio widget, HTTP) are outside the claims and are not modelled.
-/

/-- A JSON value as produced by Python's `json.load`. -/
inductive Json where
| str (s : String)
| num (n : Int)
| bool (b : Bool)
| obj (fields : List (String × Json))
| arr (elems : List Json)
| null

/-- Python dict subscript `d[key]`: `some` the value when `key` is present in
an object, `none` otherwise (a `KeyError` / `TypeError` in Python). -/
def Json.get? : Json → String → Option Json
| .obj fields, key => fields.lookup key
| _, _ => none

mutual

/-- Python `repr` of a parsed JSON value (strings get single quotes). -/
def Json.pyRepr : Json → String
| .str s => "\x27" ++ s ++ "\x27"
| .num n => toString n
| .bool b => if b then "True" else "False"
| .obj fields => "\x7b" ++ Json.pyReprFields fields ++ "\x7d"
| .arr elems => "[" ++ Json.pyReprElems elems ++ "]"
| .null => "None"

/-- Helper for `Json.pyRepr`: comma-separated `key: value` items. -/
def Json.pyReprFields : List (String × Json) → String
| [] => ""
| [(k, v)] => "\x27" ++ k ++ "\x27: " ++ Json.pyRepr v
| (k, v) :: rest =>
    "\x27" ++ k ++ "\x27: " ++ Json.pyRepr v ++ ", " ++ Json.pyReprFields rest

/-- Helper for `Json.pyRepr`: comma-separated list items. -/
def Json.pyReprElems : List Json → String
| [] => ""
| [e] => Json.pyRepr e
| e :: rest => Json.pyRepr e ++ ", " ++ Json.pyReprElems rest

end

/-- Python `str()` of a parsed JSON value, as used by f-string
interpolation: a top-level string is rendered bare, anything else as its
`repr`. -/
def Json.pyStr : Json → String
| .str s => s
| j => Json.pyRepr j

/-- `load_json` (src/main.py lines 6-18): open `{filename}.json` and parse
it; a missing file (`FileNotFoundError`) is caught and yields `{}`; a parse
error from the `json` library propagates to the caller.  The filesystem
`fs` and the parser `parse` are external collaborators passed as
functions. -/
def load_json (parse : String → Except String Json)
    (fs : String → Option String) (filename : String) : Except String Json :=
  match fs (filename ++ ".json") with
  | none => Except.ok (Json.obj [])
  | some text => parse text

/-- The module-level opening system prompt (src/main.py lines 24-43).  The
f-string performs dict lookups (`character['name']`,
`character['physical']['race']['name']`, `character['class']['name']`,
`character['behaviour']`) and interpolates values via `str()`; a missing key
raises, modelled by `none`. -/
def system_prompt (character : Json) : Option String := do
  let name ← character.get? "name"
  let physical ← character.get? "physical"
  let race ← physical.get? "race"
  let raceName ← race.get? "name"
  let cls ← character.get? "class"
  let clsName ← cls.get? "name"
  let behaviour ← character.get? "behaviour"
  some ("You are an AI Game master. Your job is to create a start to an adventure.\n\nYou are playing as "
    ++ name.pyStr ++ ", a " ++ raceName.pyStr ++ " " ++ clsName.pyStr
    ++ ".\n\n### Character Behaviors (MUST be incorporated naturally into the narrative):\n"
    ++ behaviour.pyStr
    ++ "\n\nInstructions:\n- Be exceptionally detailed in describing experiences that ignite the imagination.\n- Write in second person. For example: \"You are "
    ++ name.pyStr ++ ", a " ++ raceName.pyStr ++ " " ++ clsName.pyStr
    ++ "\" \n- Write in present tense. For example \"You stand at...\" \n- First describe the character using their exact details from this data: "
    ++ character.pyStr
    ++ "\n- Then describes where they start and what they see around them.\n- Naturally weave in at least 2-3 behavioral traits from the character\x27s behavior list.\n- Focus on anxiety and mental health issues as defined in the character data.\n- Character\x27s anxious thoughts must be wrapped in triple asterisks for bold italics like this: ***anxious thought here***\n- Limit to only 1 paragraph.\n- Always end by presenting 2-4 clear options for what the player can do next.\n- Format the options as a question, for example: \"What would you like to do? You can: 1) Try to cast a spell, despite your shaking hands, 2) Take deep breaths to calm your racing thoughts, 3) Search for a quiet corner away from others\"\n")

/-- The per-turn gameplay system prompt built inside `run_action`
(src/main.py lines 85-107); in the source it shadows the module-level
`system_prompt` name. -/
def run_action_system_prompt (character : Json) : Option String := do
  let name ← character.get? "name"
  let physical ← character.get? "physical"
  let race ← physical.get? "race"
  let raceName ← race.get? "name"
  let cls ← character.get? "class"
  let clsName ← cls.get? "name"
  let behaviour ← character.get? "behaviour"
  some ("You are an AI Game master. Your job is to write what happens next in a player\x27s adventure game.\n\nYou are playing as "
    ++ name.pyStr ++ ", a " ++ raceName.pyStr ++ " " ++ clsName.pyStr
    ++ ".\n\n### Character Data\nRace: " ++ raceName.pyStr
    ++ "\nClass: " ++ clsName.pyStr
    ++ "\nBehaviors (MUST be incorporated into every response):\n" ++ behaviour.pyStr
    ++ "\n\nInstructions:\n- As you are writing the story, make sure to include the character\x27s thoughts and feelings.\n- Each response MUST naturally incorporate at least 2 behaviors from the behavior list.\n- Character\x27s anxious thoughts must be wrapped in triple asterisks for bold italics like this: ***anxious thought here***\n- Show her struggle with spellcasting during panic attacks, social anxiety in crowds, and self-doubt about her abilities.\n- Limit to only 1 paragraph.\n- Always write in second person present tense. Ex. (You, "
    ++ name.pyStr ++ " the " ++ raceName.pyStr ++ " " ++ clsName.pyStr
    ++ ", look north and see...)\n- Always end by presenting 2-4 clear options that reflect her mental state, for example: \n  \"What would you like to do? You can: \n  1) Attempt to cast the spell, while thinking ***What if I fail and everyone sees?***\n  2) Find a quiet corner to practice breathing exercises\n  3) Try to push through the social anxiety and ask someone for help\"\n")

/-- A role-tagged chat message (a Python dict `{"role": ..., "content": ...}`). -/
structure Message where
  role : String
  content : String
deriving Repr, DecidableEq

/-- One call to `ollama.chat`: the model name, the message list, and the
`options` dict (`temperature`, `seed`). -/
structure ChatRequest where
  model : String
  messages : List Message
  temperature : Nat
  seed : Nat
deriving Repr, DecidableEq

/-- The `game_state` dict (src/main.py lines 52-56 and 67): seed, character
data, conversation history, and the stored opening narrative `start`. -/
structure GameState where
  seed : Nat
  character : Json
  history : List (String × String)
  start : String

/-- Python `str.lower` on one character (ASCII range, which covers every
string the program compares). -/
def pyLowerChar (c : Char) : Char :=
  if 65 ≤ c.toNat ∧ c.toNat ≤ 90 then Char.ofNat (c.toNat + 32) else c

/-- Python `str.lower` (ASCII range). -/
def pyLower (s : String) : String := String.mk (s.data.map pyLowerChar)

/-- Python `str.strip` with no argument: drop leading and trailing
whitespace. -/
def pyStrip (s : String) : String :=
  String.mk
    (((s.data.dropWhile Char.isWhitespace).reverse.dropWhile
        Char.isWhitespace).reverse)

/-- The transcript replay loop of src/main.py lines 120-122: each
`(user_msg, assistant_msg)` pair becomes a user message followed by an
assistant message. -/
def history_messages : List (String × String) → List Message
| [] => []
| (user_msg, assistant_msg) :: rest =>
    Message.mk "user" user_msg :: Message.mk "assistant" assistant_msg
      :: history_messages rest

/-- Message-list composition of src/main.py lines 109-125: a system message;
then, if `game_state['history']` or the Gradio `history` is non-empty, the
stored opening narrative as an assistant message followed by the replayed
transcript; then the current player message. -/
def run_action_messages (sp : String) (message : String)
    (history : List (String × String)) (gs : GameState) : List Message :=
  let messages := [Message.mk "system" sp]
  let messages :=
    if gs.history.length > 0 ∨ history.length > 0 then
      messages ++ Message.mk "assistant" gs.start :: history_messages gs.history
    else messages
  messages ++ [Message.mk "user" message]

/-- `run_action` (src/main.py lines 71-138).  Returns the value returned to
the caller (or the propagated error), the post-call `game_state`, and the
list of `ollama.chat` requests issued during the call.  `chat` is the
external backend; `character` is the module-level global the source reads. -/
def run_action (chat : ChatRequest → Except String String) (character : Json)
    (message : String) (history : List (String × String)) (gs : GameState) :
    Except String String × GameState × List ChatRequest :=
  if pyLower message = "start game" then
    (Except.ok gs.start, gs, [])
  else
    match run_action_system_prompt character with
    | none => (Except.error "KeyError", gs, [])
    | some sp =>
      let req : ChatRequest :=
        ⟨"mattw/llama2-13b-tiefighter", run_action_messages sp message history gs,
          0, gs.seed⟩
      match chat req with
      | Except.ok result =>
          (Except.ok result,
            { gs with history := gs.history ++ [(message, result)] }, [req])
      | Except.error e => (Except.error e, gs, [req])

/-- The initial message list of src/main.py lines 46-49. -/
def init_messages (sp : String) : List Message :=
  [Message.mk "system" sp, Message.mk "user" "Your Start:"]

/-- Module-level session creation (src/main.py lines 21-67): load the
character profile, build the opening system prompt (a missing key raises),
issue the opening `ollama.chat` call with temperature 0 and the fresh seed,
and store the reply as `game_state['start']`.  `seed` stands for the value
drawn by `np.random.randint(0, 1000000)`. -/
def init_game (parse : String → Except String Json) (fs : String → Option String)
    (chat : ChatRequest → Except String String) (seed : Nat) :
    Except String (GameState × List ChatRequest) :=
  match load_json parse fs "elara" with
  | Except.error e => Except.error e
  | Except.ok character =>
    match system_prompt character with
    | none => Except.error "KeyError"
    | some sp =>
      let req : ChatRequest := ⟨"mattw/llama2-13b-tiefighter", init_messages sp, 0, seed⟩
      match chat req with
      | Except.error e => Except.error e
      | Except.ok content =>
          Except.ok
            ({ seed := seed, character := character, history := [], start := content },
              [req])

/-- Driving `run_action` over a sequence of player utterances, threading the
mutated `game_state` (as `main_loop` does turn by turn). -/
def replay (chat : ChatRequest → Except String String) (character : Json)
    (utterances : List String) (gs : GameState) : GameState :=
  utterances.foldl (fun s m => (run_action chat character m [] s).2.1) gs

/-- A concrete well-formed character profile of the shape `elara.json` must
have for the source's lookups to succeed. -/
def elaraFixture : Json :=
  Json.obj
    [("name", Json.str "Elara"),
     ("physical", Json.obj [("race", Json.obj [("name", Json.str "Elf")])]),
     ("class", Json.obj [("name", Json.str "Mage")]),
     ("behaviour", Json.str "anxious spellcasting")]

/-- A backend stub that deterministically answers every request. -/
def chatOk : ChatRequest → Except String String := fun _ => Except.ok "REPLY"

/-- A backend stub that fails every request. -/
def chatErr : ChatRequest → Except String String := fun _ => Except.error "boom"

/-- A parser stub that yields the fixture profile for any content. -/
def parseElara : String → Except String Json := fun _ => Except.ok elaraFixture

/-- A parser stub that fails on any content (malformed JSON). -/
def parseBad : String → Except String Json := fun _ => Except.error "Expecting value"

/-- A filesystem stub on which `elara.json` exists. -/
def fsElara : String → Option String := fun _ => some "elara file contents"

/-- A filesystem stub with no files at all. -/
def fsMissing : String → Option String := fun _ => none

/-- A session fixture with an empty transcript. -/
def gsEmpty : GameState :=
  { seed := 7, character := elaraFixture, history := [], start := "OPENING" }

/-- A session fixture with a two-turn transcript. -/
def gsTwo : GameState :=
  { seed := 7, character := elaraFixture,
    history := [("u1", "r1"), ("u2", "r2")], start := "OPENING" }

/-- The session state produced by `init_game` on the stub collaborators. -/
def gsInitFixture : GameState :=
  { seed := 7, character := elaraFixture, history := [], start := "REPLY" }

/-- The request trace produced by `init_game` on the stub collaborators. -/
def trInitFixture : List ChatRequest :=
  [⟨"mattw/llama2-13b-tiefighter",
    init_messages ((system_prompt elaraFixture).getD ""), 0, 7⟩]

/-- When `game_state['history']` or the Gradio history is non-empty, the
composed list is the system message, then the opening narrative as an
assistant message, then the replayed transcript, then the new user
message. -/
theorem run_action_messages_pos (sp message : String)
    (history : List (String × String)) (gs : GameState)
    (h : gs.history ≠ [] ∨ history ≠ []) :
    run_action_messages sp message history gs =
      Message.mk "system" sp :: Message.mk "assistant" gs.start ::
        (history_messages gs.history ++ [Message.mk "user" message]) := by
  have hlen : gs.history.length > 0 ∨ history.length > 0 := by
    rcases h with h | h
    · exact Or.inl (List.length_pos.mpr h)
    · exact Or.inr (List.length_pos.mpr h)
  simp only [run_action_messages]
  rw [if_pos hlen]
  simp

/-- C1 (amended): for every utterance whose lowercasing equals the start
sentinel exactly — with no whitespace trimming — `run_action` returns
`game_state['start']` unchanged, leaves the whole state untouched, and
issues no backend request. -/
theorem c1_start_sentinel (chat : ChatRequest → Except String String)
    (character : Json) (message : String) (history : List (String × String))
    (gs : GameState) (h : pyLower message = "start game") :
    run_action chat character message history gs = (Except.ok gs.start, gs, []) := by
  simp [run_action, h]

/-- Witness for C1's amended theorem at the concrete utterance
`"START GAME"`. -/
theorem c1_start_sentinel_witness :
    run_action chatOk elaraFixture "START GAME" [] gsTwo =
      (Except.ok gsTwo.start, gsTwo, []) :=
  c1_start_sentinel chatOk elaraFixture "START GAME" [] gsTwo (by decide)

/-- C1 counterexample: the utterance `" start game"` trims and lowercases to
the sentinel, yet `run_action` issues a backend request and appends a turn
to the transcript instead of short-circuiting. -/
theorem c1_counterexample :
    pyLower (pyStrip " start game") = "start game" ∧
      (run_action chatOk elaraFixture " start game" [] gsEmpty).2.2.length = 1 ∧
      (run_action chatOk elaraFixture " start game" [] gsEmpty).2.1.history.length = 1 := by
  refine ⟨by decide, rfl, rfl⟩

/-- C2 (amended): on a continuation call, the opening narrative is included
— as the unique assistant message inserted right after the system message —
exactly when the session transcript or the Gradio history is non-empty; the
issued request's message list is then the system message, the opening
narrative, the replayed transcript, and the new user message. -/
theorem c2_opening_after_system (chat : ChatRequest → Except String String)
    (character : Json) (sp message : String) (history : List (String × String))
    (gs : GameState)
    (hstart : ¬ pyLower message = "start game")
    (hsp : run_action_system_prompt character = some sp)
    (h : gs.history ≠ [] ∨ history ≠ []) :
    (run_action chat character message history gs).2.2.map ChatRequest.messages =
      [Message.mk "system" sp :: Message.mk "assistant" gs.start ::
        (history_messages gs.history ++ [Message.mk "user" message])] := by
  simp only [run_action, if_neg hstart, hsp]
  cases chat ⟨"mattw/llama2-13b-tiefighter",
      run_action_messages sp message history gs, 0, gs.seed⟩ <;>
    simp [run_action_messages_pos sp message history gs h]

/-- Witness for C2's amended theorem at a session with a two-turn
transcript. -/
theorem c2_opening_after_system_witness :
    (run_action chatOk elaraFixture "look" [] gsTwo).2.2.map ChatRequest.messages =
      [Message.mk "system" ((run_action_system_prompt elaraFixture).getD "") ::
        Message.mk "assistant" gsTwo.start ::
        (history_messages gsTwo.history ++ [Message.mk "user" "look"])] :=
  c2_opening_after_system chatOk elaraFixture
    ((run_action_system_prompt elaraFixture).getD "") "look" [] gsTwo
    (by decide) rfl (Or.inl (by decide))

/-- C2 counterexample: a continuation call on a session whose opening
narrative exists but whose transcript and Gradio history are both empty
issues one request containing no assistant-role message at all — the
opening narrative is not included. -/
theorem c2_counterexample :
    (run_action chatOk elaraFixture "look" [] gsEmpty).2.2.map
        (fun r => r.messages.countP (fun m => m.role == "assistant")) = [0] ∧
      gsEmpty.start = "OPENING" := by
  refine ⟨rfl, rfl⟩

/-- C3: for a session with transcript `[(u1,r1),(u2,r2)]` and a non-start
utterance `u3`, the single generation request replays, in exact order:
system, assistant(opening), user(u1), assistant(r1), user(u2),
assistant(r2), user(u3), and nothing else. -/
theorem c3_replay_order (chat : ChatRequest → Except String String)
    (character : Json) (sp u1 r1 u2 r2 u3 : String)
    (history : List (String × String)) (seed : Nat) (start : String)
    (hstart : ¬ pyLower u3 = "start game")
    (hsp : run_action_system_prompt character = some sp) :
    (run_action chat character u3 history
        ⟨seed, character, [(u1, r1), (u2, r2)], start⟩).2.2.map
        ChatRequest.messages =
      [[Message.mk "system" sp, Message.mk "assistant" start,
        Message.mk "user" u1, Message.mk "assistant" r1,
        Message.mk "user" u2, Message.mk "assistant" r2,
        Message.mk "user" u3]] := by
  have h := run_action_messages_pos sp u3 history
    ⟨seed, character, [(u1, r1), (u2, r2)], start⟩ (Or.inl (by simp))
  simp only [run_action, if_neg hstart, hsp]
  cases chat ⟨"mattw/llama2-13b-tiefighter",
      run_action_messages sp u3 history
        ⟨seed, character, [(u1, r1), (u2, r2)], start⟩, 0, seed⟩ <;>
    simp [h, history_messages]

/-- Witness for C3 at concrete transcript entries and utterances. -/
theorem c3_replay_order_witness :
    (run_action chatOk elaraFixture "look" []
        ⟨7, elaraFixture, [("u1", "r1"), ("u2", "r2")], "OPENING"⟩).2.2.map
        ChatRequest.messages =
      [[Message.mk "system" ((run_action_system_prompt elaraFixture).getD ""),
        Message.mk "assistant" "OPENING",
        Message.mk "user" "u1", Message.mk "assistant" "r1",
        Message.mk "user" "u2", Message.mk "assistant" "r2",
        Message.mk "user" "look"]] :=
  c3_replay_order chatOk elaraFixture
    ((run_action_system_prompt elaraFixture).getD "")
    "u1" "r1" "u2" "r2" "look" [] 7 "OPENING" (by decide) rfl

/-- C4: a successful non-start call appends exactly one turn, whose player
utterance is the input verbatim and whose model reply is the string the
call returns; the transcript grows by exactly one. -/
theorem c4_append_turn (chat : ChatRequest → Except String String)
    (character : Json) (message : String) (history : List (String × String))
    (gs : GameState) (reply : String)
    (hstart : ¬ pyLower message = "start game")
    (hok : (run_action chat character message history gs).1 = Except.ok reply) :
    (run_action chat character message history gs).2.1.history =
        gs.history ++ [(message, reply)] ∧
      (run_action chat character message history gs).2.1.history.length =
        gs.history.length + 1 := by
  cases hsp : run_action_system_prompt character with
  | none =>
    exfalso
    simp only [run_action, if_neg hstart, hsp] at hok
    exact Except.noConfusion hok
  | some sp =>
    cases hc : chat ⟨"mattw/llama2-13b-tiefighter",
        run_action_messages sp message history gs, 0, gs.seed⟩ with
    | error e =>
      exfalso
      simp only [run_action, if_neg hstart, hsp, hc] at hok
      exact Except.noConfusion hok
    | ok result =>
      have hres : result = reply := by
        simp only [run_action, if_neg hstart, hsp, hc, Except.ok.injEq] at hok
        exact hok
      subst hres
      constructor
      · simp [run_action, if_neg hstart, hsp, hc]
      · simp [run_action, if_neg hstart, hsp, hc]

/-- Witness for C4 at a concrete successful call. -/
theorem c4_append_turn_witness :
    (run_action chatOk elaraFixture "look" [] gsEmpty).2.1.history =
        gsEmpty.history ++ [("look", "REPLY")] ∧
      (run_action chatOk elaraFixture "look" [] gsEmpty).2.1.history.length =
        gsEmpty.history.length + 1 :=
  c4_append_turn chatOk elaraFixture "look" [] gsEmpty "REPLY" (by decide) rfl

/-- C5: when the backend fails, a non-start call propagates the error and
leaves the whole session state — in particular the transcript — unchanged:
no partial turn is appended. -/
theorem c5_backend_failure (chat : ChatRequest → Except String String)
    (character : Json) (sp message : String)
    (history : List (String × String)) (gs : GameState) (e : String)
    (hstart : ¬ pyLower message = "start game")
    (hsp : run_action_system_prompt character = some sp)
    (hfail : ∀ req, chat req = Except.error e) :
    (run_action chat character message history gs).1 = Except.error e ∧
      (run_action chat character message history gs).2.1 = gs := by
  simp [run_action, if_neg hstart, hsp, hfail]

/-- Witness for C5 with an always-failing backend stub. -/
theorem c5_backend_failure_witness :
    (run_action chatErr elaraFixture "look" [] gsEmpty).1 = Except.error "boom" ∧
      (run_action chatErr elaraFixture "look" [] gsEmpty).2.1 = gsEmpty :=
  c5_backend_failure chatErr elaraFixture
    ((run_action_system_prompt elaraFixture).getD "") "look" [] gsEmpty "boom"
    (by decide) rfl (fun _ => rfl)

/-- C6: two sessions initialized with the same seed, profile source, and
deterministic backend are identical, so replaying the same utterance
sequence against both yields identical transcripts. -/
theorem c6_two_run_determinism (parse : String → Except String Json)
    (fs : String → Option String) (chat : ChatRequest → Except String String)
    (character : Json) (seed : Nat) (utterances : List String)
    (gs1 gs2 : GameState) (tr1 tr2 : List ChatRequest)
    (h1 : init_game parse fs chat seed = Except.ok (gs1, tr1))
    (h2 : init_game parse fs chat seed = Except.ok (gs2, tr2)) :
    (replay chat character utterances gs1).history =
      (replay chat character utterances gs2).history := by
  rw [h1] at h2
  simp only [Except.ok.injEq, Prod.mk.injEq] at h2
  rw [h2.1]

/-- Witness for C6 on the stub collaborators. -/
theorem c6_two_run_determinism_witness :
    (replay chatOk elaraFixture ["look", "go north"] gsInitFixture).history =
      (replay chatOk elaraFixture ["look", "go north"] gsInitFixture).history :=
  c6_two_run_determinism parseElara fsElara chatOk elaraFixture 7
    ["look", "go north"] gsInitFixture gsInitFixture trInitFixture trInitFixture
    rfl rfl

/-- C7: the seed is fixed at session creation, never changed by any call,
and every generation request — the opening request and every continuation
request — carries temperature 0 and the session's seed. -/
theorem c7_seed_fixed_and_options (parse : String → Except String Json)
    (fs : String → Option String) (chat : ChatRequest → Except String String)
    (character : Json) (seed : Nat) (message : String)
    (history : List (String × String)) (gs gs0 : GameState)
    (tr0 : List ChatRequest)
    (hinit : init_game parse fs chat seed = Except.ok (gs0, tr0)) :
    gs0.seed = seed ∧
      (∀ req ∈ tr0, req.temperature = 0 ∧ req.seed = seed) ∧
      (run_action chat character message history gs).2.1.seed = gs.seed ∧
      (∀ req ∈ (run_action chat character message history gs).2.2,
        req.temperature = 0 ∧ req.seed = gs.seed) := by
  have hinit2 : gs0.seed = seed ∧ ∀ req ∈ tr0, req.temperature = 0 ∧ req.seed = seed := by
    unfold init_game at hinit
    cases hl : load_json parse fs "elara" with
    | error e =>
      simp only [hl] at hinit
      exact Except.noConfusion hinit
    | ok ch =>
      simp only [hl] at hinit
      cases hsp : system_prompt ch with
      | none =>
        simp only [hsp] at hinit
        exact Except.noConfusion hinit
      | some sp =>
        simp only [hsp] at hinit
        cases hc : chat ⟨"mattw/llama2-13b-tiefighter", init_messages sp, 0, seed⟩ with
        | error e =>
          simp only [hc] at hinit
          exact Except.noConfusion hinit
        | ok content =>
          simp only [hc, Except.ok.injEq, Prod.mk.injEq] at hinit
          obtain ⟨hgs, htr⟩ := hinit
          subst hgs
          subst htr
          refine ⟨rfl, ?_⟩
          intro req hreq
          simp only [List.mem_singleton] at hreq
          subst hreq
          exact ⟨rfl, rfl⟩
  have hrun : (run_action chat character message history gs).2.1.seed = gs.seed ∧
      ∀ req ∈ (run_action chat character message history gs).2.2,
        req.temperature = 0 ∧ req.seed = gs.seed := by
    by_cases hstart : pyLower message = "start game"
    · simp [run_action, hstart]
    · cases hsp : run_action_system_prompt character with
      | none => simp [run_action, if_neg hstart, hsp]
      | some sp =>
        cases hc : chat ⟨"mattw/llama2-13b-tiefighter",
            run_action_messages sp message history gs, 0, gs.seed⟩ <;>
          simp [run_action, if_neg hstart, hsp, hc]
  exact ⟨hinit2.1, hinit2.2, hrun.1, hrun.2⟩

/-- Witness for C7 on the stub collaborators. -/
theorem c7_seed_fixed_and_options_witness :
    gsInitFixture.seed = 7 ∧
      (run_action chatOk elaraFixture "look" [] gsInitFixture).2.1.seed =
        gsInitFixture.seed :=
  ⟨(c7_seed_fixed_and_options parseElara fsElara chatOk elaraFixture 7 "look" []
      gsInitFixture gsInitFixture trInitFixture rfl).1,
    (c7_seed_fixed_and_options parseElara fsElara chatOk elaraFixture 7 "look" []
      gsInitFixture gsInitFixture trInitFixture rfl).2.2.1⟩

/-- C8 (amended): a missing profile file makes `load_json` yield the empty
record, but the very next step — the opening prompt's first key lookup —
fails on the empty record, so initialization fails with a `KeyError`
instead of proceeding with degenerate prompts. -/
theorem c8_missing_profile (parse : String → Except String Json)
    (fs : String → Option String) (chat : ChatRequest → Except String String)
    (seed : Nat) (hfs : fs "elara.json" = none) :
    load_json parse fs "elara" = Except.ok (Json.obj []) ∧
      system_prompt (Json.obj []) = none ∧
      init_game parse fs chat seed = Except.error "KeyError" := by
  have hload : load_json parse fs "elara" = Except.ok (Json.obj []) := by
    unfold load_json
    rw [show ("elara" ++ ".json" : String) = "elara.json" from rfl, hfs]
  refine ⟨hload, rfl, ?_⟩
  unfold init_game
  rw [hload]
  rfl

/-- Witness for C8's amended theorem on the empty filesystem stub. -/
theorem c8_missing_profile_witness :
    load_json parseElara fsMissing "elara" = Except.ok (Json.obj []) ∧
      system_prompt (Json.obj []) = none ∧
      init_game parseElara fsMissing chatOk 7 = Except.error "KeyError" :=
  c8_missing_profile parseElara fsMissing chatOk 7 rfl

/-- C8 counterexample: with the profile file absent, module initialization
does not proceed to degenerate prompts — the opening prompt's key lookup on
the empty record makes it fail with a `KeyError`. -/
theorem c8_counterexample :
    load_json parseElara fsMissing "elara" = Except.ok (Json.obj []) ∧
      init_game parseElara fsMissing chatOk 7 = Except.error "KeyError" :=
  ⟨rfl, rfl⟩

/-- C9: `load_json` yields the empty record for a missing file, the parsed
value for a file the parser accepts, and propagates the parser's error
otherwise; an empty-record result can only come from the missing-file
fallback or from the parser itself producing the empty record. -/
theorem c9_load_json_cases (parse : String → Except String Json)
    (fs : String → Option String) (filename text : String) (j : Json)
    (e : String) :
    (fs (filename ++ ".json") = none →
        load_json parse fs filename = Except.ok (Json.obj [])) ∧
      (fs (filename ++ ".json") = some text → parse text = Except.ok j →
        load_json parse fs filename = Except.ok j) ∧
      (fs (filename ++ ".json") = some text → parse text = Except.error e →
        load_json parse fs filename = Except.error e) ∧
      (load_json parse fs filename = Except.ok (Json.obj []) →
        fs (filename ++ ".json") = none ∨
          parse ((fs (filename ++ ".json")).getD "") = Except.ok (Json.obj [])) := by
  refine ⟨?_, ?_, ?_, ?_⟩
  · intro h
    unfold load_json
    rw [h]
  · intro h hp
    unfold load_json
    rw [h]
    exact hp
  · intro h hp
    unfold load_json
    rw [h]
    exact hp
  · intro h
    unfold load_json at h
    cases hfs : fs (filename ++ ".json") with
    | none => exact Or.inl rfl
    | some t =>
      right
      simp only [hfs] at h
      simp only [hfs, Option.getD_some]
      exact h

/-- Witness for C9: the three scenarios on concrete stubs. -/
theorem c9_load_json_cases_witness :
    load_json parseElara fsMissing "elara" = Except.ok (Json.obj []) ∧
      load_json parseElara fsElara "elara" = Except.ok elaraFixture ∧
      load_json parseBad fsElara "elara" = Except.error "Expecting value" :=
  ⟨(c9_load_json_cases parseElara fsMissing "elara" "t" elaraFixture "e").1 rfl,
    (c9_load_json_cases parseElara fsElara "elara" "elara file contents"
      elaraFixture "e").2.1 rfl rfl,
    (c9_load_json_cases parseBad fsElara "elara" "elara file contents"
      elaraFixture "Expecting value").2.2.1 rfl rfl⟩

/-- C10: a call of `run_action` can change only the transcript: the seed,
character, and stored opening narrative are preserved by every call, and a
start-sentinel call changes nothing at all. -/
theorem c10_frame (chat : ChatRequest → Except String String)
    (character : Json) (message : String) (history : List (String × String))
    (gs : GameState) :
    (run_action chat character message history gs).2.1.seed = gs.seed ∧
      (run_action chat character message history gs).2.1.character = gs.character ∧
      (run_action chat character message history gs).2.1.start = gs.start ∧
      (pyLower message = "start game" →
        run_action chat character message history gs =
          (Except.ok gs.start, gs, [])) := by
  by_cases hstart : pyLower message = "start game"
  · simp [run_action, hstart]
  · refine ⟨?_, ?_, ?_, fun h => absurd h hstart⟩ <;>
    · cases hsp : run_action_system_prompt character with
      | none => simp [run_action, if_neg hstart, hsp]
      | some sp =>
        cases hc : chat ⟨"mattw/llama2-13b-tiefighter",
            run_action_messages sp message history gs, 0, gs.seed⟩ <;>
          simp [run_action, if_neg hstart, hsp, hc]

/-- Witness for C10 at the start sentinel on a concrete session. -/
theorem c10_frame_witness :
    (run_action chatOk elaraFixture "start game" [] gsTwo).2.1.seed = gsTwo.seed ∧
      run_action chatOk elaraFixture "start game" [] gsTwo =
        (Except.ok gsTwo.start, gsTwo, []) :=
  ⟨(c10_frame chatOk elaraFixture "start game" [] gsTwo).1,
    (c10_frame chatOk elaraFixture "start game" [] gsTwo).2.2.2 rfl⟩
